import Mathlib

/-!
Verification of the ic3-labels label-extraction helpers.

Shallow embedding of `ic3_labels/labels/utils/tau.py` and
`ic3_labels/labels/utils/general.py`.

External collaborators are abstracted exactly as the spec describes them:
* `geometry.get_intersections` — its result for the particle at hand is
  passed in as the list `intersection_ts : List ℚ`;
* `get_muon_energy_at_distance frame tau d` — passed in as a function
  `energy_at_distance : ℚ → ℚ` (frame and particle are fixed by the call);
* the event frame — modelled by a `Frame` structure holding the two maps
  the pulse-attribution code reads.

Python floats are modelled by `ℚ` (the code only adds, subtracts and
compares; all constants appearing in the claims are exact in `ℚ`).
Fallible code (Python `assert`, `raise ValueError`) returns
`Except String _`; the Python value `None` that `get_tau_energy_deposited`
can return by falling off the end of the function body is the explicit
constructor `TauDepResult.noneVal`, distinct from the NaN sentinel
`TauDepResult.nanVal` and from a real number `TauDepResult.val e`.
-/

namespace IC3Labels

/-- A particle id: the pair (majorID, minorID).  (0, 0) is the sentinel. -/
abbrev PID := Nat × Nat

/-- The fields of an I3Particle that the two source files read. -/
structure Particle where
  id : PID
  energy : ℚ
  length : ℚ
deriving DecidableEq, Repr

/-- Possible results of `get_tau_energy_deposited`:
`nanVal` models `np.nan` (missing-particle sentinel), `val e` a real
float return, and `noneVal` the Python `None` produced when the function
body ends without executing a `return` statement. -/
inductive TauDepResult where
  | nanVal : TauDepResult
  | val : ℚ → TauDepResult
  | noneVal : TauDepResult
deriving DecidableEq, Repr

/-- Embedding of `get_tau_energy_deposited` (tau.py, lines 15-95).
`energy_at_distance d` stands for `get_muon_energy_at_distance(frame, tau, d)`
and `intersection_ts` for `geometry.get_intersections(convex_hull, v_pos, v_dir)`.
The list patterns mirror the Python: `[]` is `intersection_ts.size == 0`,
a two-element list is the asserted cardinality-2 case, and any other
shape is the `assert` failure.  The Python body assigns `dep_en` in the
starting branch and in the through-going decays-inside branch but never
returns it — control falls off the end of the function, which in Python
returns `None` (`TauDepResult.noneVal` here); the dead assignments are
kept as unused lets. -/
def get_tau_energy_deposited (energy_at_distance : ℚ → ℚ)
    (intersection_ts : List ℚ)
    (tau first_cascade second_cascade : Option Particle) :
    Except String TauDepResult :=
  match tau, first_cascade, second_cascade with
  | some tau, some first_cascade, some second_cascade =>
    match intersection_ts with
    | [] =>
      -- tau didn't hit convex_hull
      Except.ok (TauDepResult.val 0)
    | [t1, t2] =>
      let min_ts := min t1 t2
      let max_ts := max t1 t2
      if min_ts ≤ 0 ∧ 0 ≤ max_ts then
        -- starting track: Python assigns dep_en but the function body
        -- ends without returning it on this path
        let _dep_en :=
          if tau.length ≤ max_ts then
            first_cascade.energy
              + (tau.energy - energy_at_distance (tau.length - 1 / 1000000))
              + second_cascade.energy
          else
            first_cascade.energy + (tau.energy - energy_at_distance max_ts)
        Except.ok TauDepResult.noneVal
      else if max_ts < 0 then
        -- tau created after the convex hull
        Except.ok (TauDepResult.val 0)
      else if 0 < min_ts ∧ 0 < max_ts then
        -- incoming track
        if tau.length ≤ max_ts then
          -- tau decays before exiting: dep_en assigned, again not returned
          let _dep_en :=
            energy_at_distance min_ts
              - energy_at_distance (tau.length - 1 / 1000000)
              + second_cascade.energy
          Except.ok TauDepResult.noneVal
        else
          Except.ok (TauDepResult.val
            (energy_at_distance min_ts - energy_at_distance max_ts))
      else
        Except.ok TauDepResult.noneVal
    | _ => Except.error "Expected exactly 2 intersections"
  | _, _, _ => Except.ok TauDepResult.nanVal

/-- Embedding of `particle_is_inside` (general.py, lines 28-73).
The Python returns `None` when there is no intersection at all and a
`bool` on every other non-asserting path; the return type `Option Bool`
keeps the three-valued result. -/
def particle_is_inside (particle : Particle) (intersection_ts : List ℚ) :
    Except String (Option Bool) :=
  match intersection_ts with
  | [] =>
    -- particle didn't hit convex_hull
    Except.ok none
  | [t1, t2] =>
    let min_ts := min t1 t2
    let max_ts := max t1 t2
    if min_ts ≤ 0 ∧ 0 ≤ max_ts then
      -- starting event
      Except.ok (some true)
    else if max_ts < 0 then
      -- particle created after the convex hull
      Except.ok (some false)
    else if particle.length + 1 / 100000000 < min_ts then
      -- particle stops before convex hull
      Except.ok (some false)
    else
      -- everything else
      Except.ok (some true)
  | _ => Except.error "Expected exactly 2 intersections"

/-- A node of the I3MCTree reachable downward from a particle: its id and
its list of direct daughters (the only tree operations the code uses). -/
inductive PTree where
  | node : PID → List PTree → PTree

/-- The id stored at the root of a subtree (`particle.id`). -/
def PTree.pid : PTree → PID
  | node i _ => i

mutual

/-- Body of `get_ids_of_particle_and_daughters` for a present particle:
append the particle's id, then recurse into each daughter, threading the
shared accumulator list exactly as the Python mutates `ids`. -/
def collect_ids_particle : PTree → List PID → List PID
  | PTree.node pid ds, ids => collect_ids_daughters ds (ids ++ [pid])

/-- The `for daughter in daughters` loop of
`get_ids_of_particle_and_daughters`. -/
def collect_ids_daughters : List PTree → List PID → List PID
  | [], ids => ids
  | d :: rest, ids => collect_ids_daughters rest (collect_ids_particle d ids)

end

/-- Embedding of `get_ids_of_particle_and_daughters` (general.py, lines
76-101): `none` is the `particle is None` guard that returns the
accumulator unchanged. -/
def get_ids_of_particle_and_daughters : Option PTree → List PID → List PID
  | none, ids => ids
  | some t, ids => collect_ids_particle t ids

/-- A simulated photoelectron: arrival time plus true-origin particle id. -/
structure MCPE where
  time : ℚ
  id : PID
deriving DecidableEq, Repr

/-- A detector pulse; only its time is inspected, the payload is opaque. -/
structure Pulse where
  time : ℚ
deriving DecidableEq, Repr

/-- The parts of the event frame that `get_pulse_map` reads: the pulse
map under `pulse_map_string` (`none` when the key is absent from the
frame) and the MCPE series map, both as channel-keyed association lists. -/
structure Frame where
  in_ice_pulses : Option (List (Nat × List Pulse))
  mcpe_series_map : List (Nat × List MCPE)
deriving DecidableEq, Repr

/-- `frame[mcpe_series_map_name][key]` — association-list lookup. -/
def lookup_channel (m : List (Nat × List MCPE)) (k : Nat) : List MCPE :=
  match m.find? (fun kv => kv.1 == k) with
  | some kv => kv.2
  | none => []

/-- The inner `for i, t in enumerate(mc_pulse_times[last_index:])` loop:
index of the first time within `tol` of `pulse_time`, if any. -/
def find_first_match (tol : ℚ) (pulse_time : ℚ) : List ℚ → Option Nat
  | [] => none
  | t :: ts =>
    if |pulse_time - t| < tol then some 0
    else (find_first_match tol pulse_time ts).map (· + 1)

/-- The `for pulse in in_ice_pulses[key]` loop of `get_pulse_map` with
its `last_index` cursor: on a match at offset `i` into the remaining
times, set `last_index := last_index + i` and accept the pulse. -/
def scan_pulses (tol : ℚ) (mc_pulse_times : List ℚ) :
    List Pulse → Nat → List Pulse
  | [], _ => []
  | p :: ps, last_index =>
    match find_first_match tol p.time (mc_pulse_times.drop last_index) with
    | some i => p :: scan_pulses tol mc_pulse_times ps (last_index + i)
    | none => scan_pulses tol mc_pulse_times ps last_index

/-- Embedding of `get_pulse_map` (general.py, lines 104-182).  The
shared-keys set iteration is modelled as an in-order filter of the pulse
map's channels (the outputs claimed about are order-insensitive or
single-channel).  Raises (`Except.error`) exactly where the Python
raises `ValueError` or fails an `assert`. -/
def get_pulse_map (frame : Frame) (particle : PTree) (max_time_dif : ℚ) :
    Except String (List (Nat × List Pulse)) :=
  if particle.pid = ((0 : Nat), (0 : Nat)) then
    Except.error "Can not get pulse map for particle with id == (0,0)"
  else
    match frame.in_ice_pulses with
    | none => Except.ok []
    | some in_ice_pulses =>
      let ids := get_ids_of_particle_and_daughters (some particle) []
      if ((0 : Nat), (0 : Nat)) ∈ ids then
        Except.error "Daughter particle with id (0,0) should not exist"
      else
        let valid_keys := frame.mcpe_series_map.map Prod.fst
        let shared_keys := in_ice_pulses.filter (fun kv => valid_keys.contains kv.1)
        Except.ok (shared_keys.filterMap (fun kv =>
          let mc_pulse_times :=
            ((lookup_channel frame.mcpe_series_map kv.1).filter
              (fun p => ids.contains p.id)).map MCPE.time
          if mc_pulse_times.isEmpty then none
          else
            let particle_in_ice_pulses := scan_pulses max_time_dif mc_pulse_times kv.2 0
            if particle_in_ice_pulses.isEmpty then none
            else some (kv.1, particle_in_ice_pulses)))

/-! ### Concrete inputs used by counterexamples and witnesses -/

/-- A tau with energy 1000 and track length 200. -/
def tau0 : Particle := ⟨(1, 1), 1000, 200⟩

/-- First-interaction hadronic cascade, energy 30. -/
def first_cascade0 : Particle := ⟨(1, 2), 30, 0⟩

/-- Second-interaction (decay) hadronic cascade, energy 40. -/
def second_cascade0 : Particle := ⟨(1, 3), 40, 0⟩

/-- A linear energy-loss model: residual energy 1000 − d at distance d. -/
def energy_linear : ℚ → ℚ := fun d => 1000 - d

/-- The no-loss energy model of the spec's concrete scenario: residual
energy is 1000 (= tau0.energy) at every distance. -/
def energy_const : ℚ → ℚ := fun _ => 1000

/-! ### Claims -/

/-- C1: claimed — with all three particles present, `t_min ≤ 0 ≤ t_max`
(STARTING) and `t_max < tau.length`, the accountant returns
`first_cascade.energy + (tau.energy − energy_at_distance(tau, t_max))`;
in particular for `t_min = 0`, `t_max = 150`, `tau.length = 200`.
Code bug: on this path the Python body assigns `dep_en` but reaches the
end of the function without a `return`, so the call returns `None`
(`TauDepResult.noneVal`), not the claimed number (which would be
30 + (1000 − 850) = 180 for the linear model). -/
theorem claim_C1_starting_returns_none :
    get_tau_energy_deposited energy_linear [0, 150]
        (some tau0) (some first_cascade0) (some second_cascade0) =
      Except.ok TauDepResult.noneVal ∧
    TauDepResult.noneVal ≠
      TauDepResult.val
        (first_cascade0.energy + (tau0.energy - energy_linear 150)) := by
  exact ⟨rfl, by decide⟩

/-- C2: claimed — with `t_min > 0`, `t_max > 0` and `t_max ≥ tau.length`
(through-going, tau decays inside), the accountant returns
`energy_at_distance(tau, t_min) − energy_at_distance(tau, length − 1e-6)
+ second_cascade.energy`, which collapses to `second_cascade.energy`
under a no-loss model.  Code bug: on this path too the assignment to
`dep_en` is never returned; the call returns `None`
(`TauDepResult.noneVal`), not `second_cascade.energy = 40`. -/
theorem claim_C2_decay_inside_returns_none :
    get_tau_energy_deposited energy_const [50, 250]
        (some tau0) (some first_cascade0) (some second_cascade0) =
      Except.ok TauDepResult.noneVal ∧
    TauDepResult.noneVal ≠ TauDepResult.val second_cascade0.energy := by
  exact ⟨rfl, by decide⟩

/-- C3: if any of the three particles is missing (`none`), the accountant
returns NaN (`TauDepResult.nanVal`) without raising, for every
intersection result and every energy model. -/
theorem claim_C3_missing_particle_nan (energy_at_distance : ℚ → ℚ)
    (intersection_ts : List ℚ) (tau fc sc : Option Particle) :
    get_tau_energy_deposited energy_at_distance intersection_ts
        none fc sc = Except.ok TauDepResult.nanVal ∧
    get_tau_energy_deposited energy_at_distance intersection_ts
        tau none sc = Except.ok TauDepResult.nanVal ∧
    get_tau_energy_deposited energy_at_distance intersection_ts
        tau fc none = Except.ok TauDepResult.nanVal := by
  refine ⟨rfl, ?_, ?_⟩
  · cases tau <;> rfl
  · cases tau <;> cases fc <;> rfl

/-- C4: with all three particles present, the accountant returns exactly 0
when the intersection query yields no parameters, and also when it yields
two parameters with `t_max < 0` (volume entirely behind the production
point). -/
theorem claim_C4_no_volume_zero (energy_at_distance : ℚ → ℚ)
    (t1 t2 : ℚ) (tau fc sc : Particle) (h : max t1 t2 < 0) :
    get_tau_energy_deposited energy_at_distance []
        (some tau) (some fc) (some sc) = Except.ok (TauDepResult.val 0) ∧
    get_tau_energy_deposited energy_at_distance [t1, t2]
        (some tau) (some fc) (some sc) = Except.ok (TauDepResult.val 0) := by
  constructor
  · rfl
  · have h1 : ¬(min t1 t2 ≤ 0 ∧ 0 ≤ max t1 t2) := by
      rintro ⟨-, h2⟩
      exact absurd (lt_of_le_of_lt h2 h) (lt_irrefl 0)
    simp only [get_tau_energy_deposited]
    rw [if_neg h1, if_pos h]

/-- Witness for C4 at `t1 = -5`, `t2 = -3`. -/
theorem claim_C4_no_volume_zero_witness :
    get_tau_energy_deposited energy_linear []
        (some tau0) (some first_cascade0) (some second_cascade0) =
      Except.ok (TauDepResult.val 0) ∧
    get_tau_energy_deposited energy_linear [-5, -3]
        (some tau0) (some first_cascade0) (some second_cascade0) =
      Except.ok (TauDepResult.val 0) :=
  claim_C4_no_volume_zero energy_linear (-5) (-3)
    tau0 first_cascade0 second_cascade0 (by decide)

/-- C6: with all three particles present, `0 < t_min`, `0 < t_max` and
`t_max < tau.length` (through-going, tau exits alive), the accountant
returns exactly `energy_at_distance t_min − energy_at_distance t_max`,
with no contribution from any other branch. -/
theorem claim_C6_throughgoing_exit (energy_at_distance : ℚ → ℚ)
    (t1 t2 : ℚ) (tau fc sc : Particle)
    (hmin : 0 < min t1 t2) (hmax : 0 < max t1 t2)
    (hlen : max t1 t2 < tau.length) :
    get_tau_energy_deposited energy_at_distance [t1, t2]
        (some tau) (some fc) (some sc) =
      Except.ok (TauDepResult.val
        (energy_at_distance (min t1 t2) - energy_at_distance (max t1 t2))) := by
  have h1 : ¬(min t1 t2 ≤ 0 ∧ 0 ≤ max t1 t2) := by
    rintro ⟨hle, -⟩
    exact absurd hmin (not_lt.mpr hle)
  have h2 : ¬(max t1 t2 < 0) := not_lt.mpr (le_of_lt hmax)
  have h4 : ¬(tau.length ≤ max t1 t2) := not_le.mpr hlen
  simp only [get_tau_energy_deposited]
  rw [if_neg h1, if_neg h2, if_pos ⟨hmin, hmax⟩, if_neg h4]

/-- Witness for C6 at `t1 = 50`, `t2 = 150`, `tau0.length = 200`:
result is `energy_linear 50 − energy_linear 150 = 950 − 850 = 100`. -/
theorem claim_C6_throughgoing_exit_witness :
    get_tau_energy_deposited energy_linear [50, 150]
        (some tau0) (some first_cascade0) (some second_cascade0) =
      Except.ok (TauDepResult.val
        (energy_linear (min 50 150) - energy_linear (max 50 150))) :=
  claim_C6_throughgoing_exit energy_linear 50 150
    tau0 first_cascade0 second_cascade0 (by decide) (by decide) (by decide)

/-- A frame with an (empty) pulse map present and no MCPE channels. -/
def frame_small : Frame := ⟨some [], []⟩

/-- A particle whose id is the sentinel (0,0). -/
def ptree_sentinel : PTree := PTree.node (0, 0) []

/-- A particle with a real id whose only daughter carries the sentinel id. -/
def ptree_bad_daughter : PTree := PTree.node (1, 1) [PTree.node (0, 0) []]

/-- C5: the three precondition violations raise.
(1) `get_pulse_map` for a particle with the sentinel id (0,0) raises
before any matching (for every frame, so before the pulse map is even
read); (2) with the pulse map present, a descendant-id list containing
(0,0) raises; (3) a non-empty intersection list whose length is not 2
raises in both `particle_is_inside` and `get_tau_energy_deposited`. -/
theorem claim_C5_precondition_violations :
    (∀ (frame : Frame) (particle : PTree) (tol : ℚ),
      particle.pid = ((0 : Nat), (0 : Nat)) →
      get_pulse_map frame particle tol =
        Except.error "Can not get pulse map for particle with id == (0,0)") ∧
    (∀ (frame : Frame) (particle : PTree) (tol : ℚ)
        (pm : List (Nat × List Pulse)),
      particle.pid ≠ ((0 : Nat), (0 : Nat)) →
      frame.in_ice_pulses = some pm →
      ((0 : Nat), (0 : Nat)) ∈ get_ids_of_particle_and_daughters (some particle) [] →
      get_pulse_map frame particle tol =
        Except.error "Daughter particle with id (0,0) should not exist") ∧
    (∀ (particle : Particle) (t1 t2 t3 : ℚ) (rest : List ℚ),
      particle_is_inside particle [t1] =
        Except.error "Expected exactly 2 intersections" ∧
      particle_is_inside particle (t1 :: t2 :: t3 :: rest) =
        Except.error "Expected exactly 2 intersections") ∧
    (∀ (energy_at_distance : ℚ → ℚ) (t1 t2 t3 : ℚ) (rest : List ℚ)
        (tau fc sc : Particle),
      get_tau_energy_deposited energy_at_distance [t1]
          (some tau) (some fc) (some sc) =
        Except.error "Expected exactly 2 intersections" ∧
      get_tau_energy_deposited energy_at_distance (t1 :: t2 :: t3 :: rest)
          (some tau) (some fc) (some sc) =
        Except.error "Expected exactly 2 intersections") := by
  refine ⟨?_, ?_, ?_, ?_⟩
  · intro frame particle tol h
    simp only [get_pulse_map]
    rw [if_pos h]
  · intro frame particle tol pm hid hpm hmem
    simp only [get_pulse_map]
    rw [if_neg hid, hpm]
    simp only []
    rw [if_pos hmem]
  · intro particle t1 t2 t3 rest
    exact ⟨rfl, rfl⟩
  · intro energy_at_distance t1 t2 t3 rest tau fc sc
    exact ⟨rfl, rfl⟩

/-- Witness for C5 at concrete inputs: the sentinel-id particle, a
particle with a sentinel-id daughter, and intersection lists of length
1 and 3. -/
theorem claim_C5_precondition_violations_witness :
    get_pulse_map frame_small ptree_sentinel 100 =
      Except.error "Can not get pulse map for particle with id == (0,0)" ∧
    get_pulse_map frame_small ptree_bad_daughter 100 =
      Except.error "Daughter particle with id (0,0) should not exist" ∧
    particle_is_inside tau0 [7] =
      Except.error "Expected exactly 2 intersections" ∧
    get_tau_energy_deposited energy_linear [7, 8, 9]
        (some tau0) (some first_cascade0) (some second_cascade0) =
      Except.error "Expected exactly 2 intersections" :=
  ⟨claim_C5_precondition_violations.1 frame_small ptree_sentinel 100 rfl,
   claim_C5_precondition_violations.2.1 frame_small ptree_bad_daughter 100 []
     (by decide) rfl (by decide),
   (claim_C5_precondition_violations.2.2.1 tau0 7 0 0 []).1,
   (claim_C5_precondition_violations.2.2.2 energy_linear 7 8 9 []
     tau0 first_cascade0 second_cascade0).1⟩

/-- The frame of the C7 scenario: channel 7 has detector pulses at times
100, 250, 400 and MCPEs at times 105 and 402, both caused by particle
(1,1). -/
def frame_c7 : Frame :=
  ⟨some [(7, [⟨100⟩, ⟨250⟩, ⟨400⟩])],
   [(7, [⟨105, (1, 1)⟩, ⟨402, (1, 1)⟩])]⟩

/-- The particle of the C7 scenario, id (1,1), no daughters. -/
def ptree_c7 : PTree := PTree.node (1, 1) []

/-- C7: with detector pulse times [100, 250, 400], candidate
photoelectron times [105, 402] and tolerance 100, the attributor accepts
exactly the pulses at times 100 and 400, in that order; the pulse at
250 is not accepted. -/
theorem claim_C7_scenario :
    get_pulse_map frame_c7 ptree_c7 100 =
      Except.ok [(7, [⟨100⟩, ⟨400⟩])] := by
  norm_num [get_pulse_map, frame_c7, ptree_c7, PTree.pid,
    get_ids_of_particle_and_daughters, collect_ids_particle,
    collect_ids_daughters, lookup_channel, scan_pulses, find_first_match,
    List.filterMap_cons, List.filter_cons, List.contains, List.find?,
    List.isEmpty]

/-- C8: the descendant-id collector on a particle with zero daughters,
started with the empty accumulator, returns exactly the singleton list
of that particle's id; on an absent particle it returns the accumulator
unchanged. -/
theorem claim_C8_collector_base (pid : PID) (ids : List PID) :
    get_ids_of_particle_and_daughters (some (PTree.node pid [])) [] = [pid] ∧
    get_ids_of_particle_and_daughters none ids = ids :=
  ⟨rfl, rfl⟩

/-- C9: the pulse attributor is deterministic: two calls on identical
inputs (frame, particle, tolerance) return identical results — there is
no hidden cursor or other state, the `last_index` cursor being re-created
inside each call. -/
theorem claim_C9_deterministic (f1 f2 : Frame) (p1 p2 : PTree)
    (tol1 tol2 : ℚ) (hf : f1 = f2) (hp : p1 = p2) (ht : tol1 = tol2) :
    get_pulse_map f1 p1 tol1 = get_pulse_map f2 p2 tol2 := by
  rw [hf, hp, ht]

/-- Witness for C9: two successive calls on the C7 inputs agree. -/
theorem claim_C9_deterministic_witness :
    get_pulse_map frame_c7 ptree_c7 100 = get_pulse_map frame_c7 ptree_c7 100 :=
  claim_C9_deterministic frame_c7 frame_c7 ptree_c7 ptree_c7 100 100
    rfl rfl rfl

/-- C10: when the intersection query returns no parameters,
`particle_is_inside` returns `none` (Python `None`) — a third value
distinct from `some true` and `some false` by construction of
`Option Bool` — although the docstring promises a bool; with two
parameters every path returns `some` of a boolean. -/
theorem claim_C10_none_result (particle : Particle) (t1 t2 : ℚ) :
    particle_is_inside particle [] = Except.ok none ∧
    ∃ c : Bool, particle_is_inside particle [t1, t2] = Except.ok (some c) := by
  refine ⟨rfl, ?_⟩
  simp only [particle_is_inside]
  split_ifs <;> exact ⟨_, rfl⟩

end IC3Labels
